import Mathlib

/-!
Verification of the kraftkit QMP client specification against the source.

Part 1 embeds `Process.Update` from `src/tui/paraprogress/process.go`.
Part 2 embeds the QMP v1alpha schema from
`src/machine/qemu/qmp/v1alpha/run_state.proto` and `service.proto`.
Part 3 models the connection state machine and the correlator described by
the specification (the corresponding Go client code is not among the
provided sources; only its schema declarations are).
-/

namespace KraftKit

/-! ## Part 1: paraprogress Process (src/tui/paraprogress/process.go) -/

/-- `ProcessStatus` from process.go: Pending, Running, Failed, Success. -/
inductive ProcessStatus
  | statusPending
  | statusRunning
  | statusFailed
  | statusSuccess
deriving DecidableEq, Repr

/-- The fields of the Go `Process` struct that `Update` reads or writes.
`percent` is a Go float64; `Update` only assigns and compares it (no
arithmetic), so the exact values are modelled as rationals. -/
structure ProcessM where
  id : Int
  percent : ℚ
  status : ProcessStatus
  err : Option String
  width : Int
  spinnerTicks : Nat
deriving DecidableEq, Repr

/-- The bubbletea messages `Process.Update` dispatches on: `ProgressMsg`,
`StatusMsg`, `spinner.TickMsg`, `tea.WindowSizeMsg`. -/
inductive Msg
  | progressMsg (ID : Int) (progress : ℚ)
  | statusMsg (ID : Int) (status : ProcessStatus) (err : Option String)
  | spinnerTickMsg
  | windowSizeMsg (w : Int)
deriving DecidableEq, Repr

/-- Commands a call to `Process.Update` can emit: the forwarded result of
`d.timer.Update(msg)`, `d.timer.Stop()`, and the spinner's follow-up. -/
inductive TeaCmd
  | timerUpd
  | timerStop
  | spinnerCmd
deriving DecidableEq, Repr

/-- `Process.Update` from process.go.  The timer-update command is collected
first; on an ID mismatch the function returns `(d, nil)`, discarding the
collected commands, exactly as the Go `return d, nil` does. -/
def ProcessM.update (d : ProcessM) (msg : Msg) : ProcessM × List TeaCmd :=
  let base : List TeaCmd := [.timerUpd]
  match msg with
  | .progressMsg mid prog =>
      if mid ≠ d.id then (d, [])
      else if prog > 1 then ({ d with percent := 1 }, base ++ [.timerStop])
      else ({ d with percent := prog }, base)
  | .statusMsg mid st e =>
      if mid ≠ d.id then (d, [])
      else if st = .statusFailed then
        ({ d with status := st, err := e }, base ++ [.timerStop])
      else if st = .statusSuccess then
        ({ d with status := st, percent := 1 }, base ++ [.timerStop])
      else ({ d with status := st }, base)
  | .spinnerTickMsg => ({ d with spinnerTicks := d.spinnerTicks + 1 }, base ++ [.spinnerCmd])
  | .windowSizeMsg w => ({ d with width := w }, base)

/-- C9: a `ProgressMsg` or `StatusMsg` whose ID differs from the process's id
leaves the process's percent, Status and err fields unchanged. -/
theorem C9_update_frame (d : ProcessM) (mid : Int) (prog : ℚ)
    (st : ProcessStatus) (e : Option String) (h : mid ≠ d.id) :
    ((d.update (.progressMsg mid prog)).1.percent = d.percent
      ∧ (d.update (.progressMsg mid prog)).1.status = d.status
      ∧ (d.update (.progressMsg mid prog)).1.err = d.err)
    ∧ ((d.update (.statusMsg mid st e)).1.percent = d.percent
      ∧ (d.update (.statusMsg mid st e)).1.status = d.status
      ∧ (d.update (.statusMsg mid st e)).1.err = d.err) := by
  simp [ProcessM.update, h]

/-- Witness for C9 at a concrete process and mismatched message id. -/
theorem C9_update_frame_witness :
    (2 : Int) ≠ (⟨1, 0, .statusPending, none, 0, 0⟩ : ProcessM).id
    ∧ (((⟨1, 0, .statusPending, none, 0, 0⟩ : ProcessM).update
          (.progressMsg 2 (1/2))).1.percent
        = (⟨1, 0, .statusPending, none, 0, 0⟩ : ProcessM).percent
      ∧ ((⟨1, 0, .statusPending, none, 0, 0⟩ : ProcessM).update
          (.progressMsg 2 (1/2))).1.status
        = (⟨1, 0, .statusPending, none, 0, 0⟩ : ProcessM).status
      ∧ ((⟨1, 0, .statusPending, none, 0, 0⟩ : ProcessM).update
          (.progressMsg 2 (1/2))).1.err
        = (⟨1, 0, .statusPending, none, 0, 0⟩ : ProcessM).err) := by
  refine ⟨by decide, ?_⟩
  exact (C9_update_frame ⟨1, 0, .statusPending, none, 0, 0⟩ 2 (1/2)
    .statusRunning none (by decide)).1

/-- C10: a `ProgressMsg` carrying the process's own id sets percent to the
message's progress when it is at most 1.0, and clamps it to exactly 1.0
(also emitting the timer-stop command) when it exceeds 1.0. -/
theorem C10_progress_clamp (d : ProcessM) (prog : ℚ) :
    (prog ≤ 1 → (d.update (.progressMsg d.id prog)).1.percent = prog)
    ∧ (1 < prog → (d.update (.progressMsg d.id prog)).1.percent = 1
        ∧ TeaCmd.timerStop ∈ (d.update (.progressMsg d.id prog)).2) := by
  constructor
  · intro hle
    simp [ProcessM.update, not_lt.mpr hle]
  · intro hgt
    simp [ProcessM.update, hgt]

/-- Witness for C10 at a concrete process with progress 3/2 > 1. -/
theorem C10_progress_clamp_witness :
    (1 : ℚ) < 3/2
    ∧ (((⟨1, 0, .statusRunning, none, 0, 0⟩ : ProcessM).update
          (.progressMsg 1 (3/2))).1.percent = 1
      ∧ TeaCmd.timerStop ∈ ((⟨1, 0, .statusRunning, none, 0, 0⟩ : ProcessM).update
          (.progressMsg 1 (3/2))).2) := by
  refine ⟨by norm_num, ?_⟩
  exact (C10_progress_clamp ⟨1, 0, .statusRunning, none, 0, 0⟩ (3/2)).2 (by norm_num)

/-! ## Part 2: QMP v1alpha schema (run_state.proto, service.proto) -/

/-- A JSON value, as exchanged on the QMP wire (one object per line). -/
inductive Json
  | null
  | bool (b : Bool)
  | num (n : Int)
  | str (s : String)
  | arr (xs : List Json)
  | obj (fields : List (String × Json))

/-- Field lookup on a JSON object. -/
def Json.getField : Json → String → Option Json
  | .obj fs, k => fs.lookup k
  | _, _ => none

/-- Project a JSON boolean. -/
def Json.asBool : Json → Option Bool
  | .bool b => some b
  | _ => none

/-- Project a JSON string. -/
def Json.asStr : Json → Option String
  | .str s => some s
  | _ => none

/-- `RunState` from run_state.proto: the closed enumeration of guest run
states returned by `query-status`. -/
inductive RunState
  | RUN_STATE_COLO
  | RUN_STATE_DEBUG
  | RUN_STATE_FINISH_MIGRATE
  | RUN_STATE_GUEST_PANICKED
  | RUN_STATE_INMIGRATE
  | RUN_STATE_INTERNAL_ERROR
  | RUN_STATE_IO_ERROR
  | RUN_STATE_PAUSED
  | RUN_STATE_POSTMIGRATE
  | RUN_STATE_PRELAUNCH
  | RUN_STATE_RESTORE_VM
  | RUN_STATE_RUNNING
  | RUN_STATE_SAVE_VM
  | RUN_STATE_SHUTDOWN
  | RUN_STATE_SUSPENDED
  | RUN_STATE_WATCHDOG
deriving DecidableEq, Repr, Fintype

/-- The `json_name` option of each `RunState` variant in run_state.proto. -/
def RunState.jsonName : RunState → String
  | .RUN_STATE_COLO => "colo"
  | .RUN_STATE_DEBUG => "debug"
  | .RUN_STATE_FINISH_MIGRATE => "finish-migrate"
  | .RUN_STATE_GUEST_PANICKED => "guest-panicked"
  | .RUN_STATE_INMIGRATE => "inmigrate"
  | .RUN_STATE_INTERNAL_ERROR => "internal-error"
  | .RUN_STATE_IO_ERROR => "io-error"
  | .RUN_STATE_PAUSED => "paused"
  | .RUN_STATE_POSTMIGRATE => "postmigrate"
  | .RUN_STATE_PRELAUNCH => "prelaunch"
  | .RUN_STATE_RESTORE_VM => "restore-vm"
  | .RUN_STATE_RUNNING => "running"
  | .RUN_STATE_SAVE_VM => "save-vm"
  | .RUN_STATE_SHUTDOWN => "shutdown"
  | .RUN_STATE_SUSPENDED => "suspended"
  | .RUN_STATE_WATCHDOG => "watchdog"

/-- All sixteen `RunState` variants, in declaration order. -/
def RunState.all : List RunState :=
  [.RUN_STATE_COLO, .RUN_STATE_DEBUG, .RUN_STATE_FINISH_MIGRATE,
   .RUN_STATE_GUEST_PANICKED, .RUN_STATE_INMIGRATE, .RUN_STATE_INTERNAL_ERROR,
   .RUN_STATE_IO_ERROR, .RUN_STATE_PAUSED, .RUN_STATE_POSTMIGRATE,
   .RUN_STATE_PRELAUNCH, .RUN_STATE_RESTORE_VM, .RUN_STATE_RUNNING,
   .RUN_STATE_SAVE_VM, .RUN_STATE_SHUTDOWN, .RUN_STATE_SUSPENDED,
   .RUN_STATE_WATCHDOG]

/-- Decode a wire string back to the `RunState` variant whose `json_name`
it is. -/
def decodeRunState (s : String) : Option RunState :=
  RunState.all.find? (fun r => r.jsonName == s)

/-- `StatusInfo` from run_state.proto, with json_name options
`running`, `singlestep`, `status`. -/
structure StatusInfo where
  running : Bool
  singleStep : Bool
  status : RunState
deriving DecidableEq, Repr, Fintype

/-- `QueryStatusResponse` from run_state.proto: a single `StatusInfo`
field with json_name `return` (Go field `Return`). -/
structure QueryStatusResponse where
  Return : StatusInfo
deriving DecidableEq, Repr, Fintype

/-- `QueryKvmResponse` per service.proto's `query-kvm` documentation:
`enabled` and `present` booleans. -/
structure QueryKvmResponse where
  enabled : Bool
  present : Bool
deriving DecidableEq, Repr, Fintype

/-- Unmarshal a `StatusInfo` from its wire JSON object, following the
json_name options of run_state.proto. -/
def decodeStatusInfo (j : Json) : Option StatusInfo := do
  let running ← (← j.getField "running").asBool
  let singleStep ← (← j.getField "singlestep").asBool
  let statusStr ← (← j.getField "status").asStr
  let status ← decodeRunState statusStr
  pure ⟨running, singleStep, status⟩

/-- Unmarshal a `QueryStatusResponse` from a wire Response object. -/
def decodeQueryStatusResponse (j : Json) : Option QueryStatusResponse := do
  let r ← j.getField "return"
  let si ← decodeStatusInfo r
  pure ⟨si⟩

/-- Unmarshal a `QueryKvmResponse` from a wire Response object. -/
def decodeQueryKvmResponse (j : Json) : Option QueryKvmResponse := do
  let r ← j.getField "return"
  let enabled ← (← r.getField "enabled").asBool
  let present ← (← r.getField "present").asBool
  pure ⟨enabled, present⟩

/-- Unmarshal an empty-payload Response (`{"return": {}}`), as produced by
quit, stop, cont, system_reset, system_powerdown, system_wakeup and
qmp_capabilities. -/
def decodeEmptyResponse (j : Json) : Option Unit :=
  match j.getField "return" with
  | some (.obj _) => some ()
  | _ => none

/-- C3: unmarshaling the response
`{"return": {"running": true, "singlestep": false, "status": "running"}}`
yields running = true, singleStep = false, status = RUN_STATE_RUNNING. -/
theorem C3_query_status_decode :
    decodeQueryStatusResponse
      (.obj [("return", .obj [("running", .bool true), ("singlestep", .bool false),
        ("status", .str "running")])])
      = some ⟨⟨true, false, .RUN_STATE_RUNNING⟩⟩ := by
  rfl

/-- C4: the run-state wire strings form a closed set with exactly one
variant per string (jsonName is injective over the enumeration, which
`RunState.all` exhausts), and the five named wire strings decode to their
corresponding variants. -/
theorem C4_run_state_wire_strings :
    decodeRunState "running" = some .RUN_STATE_RUNNING
    ∧ decodeRunState "paused" = some .RUN_STATE_PAUSED
    ∧ decodeRunState "shutdown" = some .RUN_STATE_SHUTDOWN
    ∧ decodeRunState "guest-panicked" = some .RUN_STATE_GUEST_PANICKED
    ∧ decodeRunState "watchdog" = some .RUN_STATE_WATCHDOG
    ∧ (∀ r : RunState, r ∈ RunState.all)
    ∧ (∀ r r' : RunState, r.jsonName = r'.jsonName → r = r') := by
  decide

/-- The operations of the `QEMUMachineProtocol` service in service.proto
(the Schema Registry of the specification's section 6). -/
inductive QmpOp
  | qmp_capabilities
  | quit
  | stop
  | cont
  | system_reset
  | system_powerdown
  | system_wakeup
  | query_kvm
  | query_status
deriving DecidableEq, Repr, Fintype

/-- Wire command name of each operation, per the `execute` examples of
service.proto and the `(execute)` option of run_state.proto. -/
def QmpOp.wireName : QmpOp → String
  | .qmp_capabilities => "qmp_capabilities"
  | .quit => "quit"
  | .stop => "stop"
  | .cont => "cont"
  | .system_reset => "system_reset"
  | .system_powerdown => "system_powerdown"
  | .system_wakeup => "system_wakeup"
  | .query_kvm => "query-kvm"
  | .query_status => "query-status"

/-- Typed input of each operation: `qmp_capabilities` optionally carries the
capability list to enable (service.proto example: `"enable": ["oob"]`);
every other operation's request message has no arguments. -/
def QmpOp.Input : QmpOp → Type
  | .qmp_capabilities => List String
  | _ => Unit

/-- Typed output of each operation: `query-kvm` and `query-status` return
structured payloads; every other operation returns the empty object. -/
def QmpOp.Output : QmpOp → Type
  | .query_kvm => QueryKvmResponse
  | .query_status => QueryStatusResponse
  | _ => Unit

/-- Marshal a typed input to the wire Command shape
`{"execute": <name>, "arguments": {...}}`. -/
def marshalCommand : (op : QmpOp) → op.Input → Json
  | .qmp_capabilities, caps =>
      .obj [("execute", .str "qmp_capabilities"),
            ("arguments", .obj [("enable", .arr (caps.map Json.str))])]
  | .quit, _ => .obj [("execute", .str "quit")]
  | .stop, _ => .obj [("execute", .str "stop")]
  | .cont, _ => .obj [("execute", .str "cont")]
  | .system_reset, _ => .obj [("execute", .str "system_reset")]
  | .system_powerdown, _ => .obj [("execute", .str "system_powerdown")]
  | .system_wakeup, _ => .obj [("execute", .str "system_wakeup")]
  | .query_kvm, _ => .obj [("execute", .str "query-kvm")]
  | .query_status, _ => .obj [("execute", .str "query-status")]

/-- Marshal a `StatusInfo` to its wire JSON object (json_name options of
run_state.proto). -/
def encodeStatusInfo (si : StatusInfo) : Json :=
  .obj [("running", .bool si.running), ("singlestep", .bool si.singleStep),
        ("status", .str si.status.jsonName)]

/-- The well-formed wire Response carrying a given typed output. -/
def encodeResponseFor : (op : QmpOp) → op.Output → Json
  | .query_kvm, out =>
      .obj [("return", .obj [("enabled", .bool out.enabled),
        ("present", .bool out.present)])]
  | .query_status, out => .obj [("return", encodeStatusInfo out.Return)]
  | .qmp_capabilities, _ => .obj [("return", .obj [])]
  | .quit, _ => .obj [("return", .obj [])]
  | .stop, _ => .obj [("return", .obj [])]
  | .cont, _ => .obj [("return", .obj [])]
  | .system_reset, _ => .obj [("return", .obj [])]
  | .system_powerdown, _ => .obj [("return", .obj [])]
  | .system_wakeup, _ => .obj [("return", .obj [])]

/-- Unmarshal a wire Response into the operation's typed output. -/
def decodeResponseFor : (op : QmpOp) → Json → Option op.Output
  | .query_kvm, j => decodeQueryKvmResponse j
  | .query_status, j => decodeQueryStatusResponse j
  | .qmp_capabilities, j => decodeEmptyResponse j
  | .quit, j => decodeEmptyResponse j
  | .stop, j => decodeEmptyResponse j
  | .cont, j => decodeEmptyResponse j
  | .system_reset, j => decodeEmptyResponse j
  | .system_powerdown, j => decodeEmptyResponse j
  | .system_wakeup, j => decodeEmptyResponse j

/-- C5: for every Schema Registry operation, the marshaled Command carries
the operation's wire name, and unmarshaling the well-formed Response built
from any expected typed output recovers exactly that output. -/
theorem C5_roundtrip :
    (∀ (op : QmpOp) (inp : op.Input),
      (marshalCommand op inp).getField "execute" = some (.str op.wireName))
    ∧ (∀ (op : QmpOp) (out : op.Output),
      decodeResponseFor op (encodeResponseFor op out) = some out) := by
  constructor
  · intro op inp
    cases op <;> rfl
  · intro op out
    cases op
    case query_kvm =>
      obtain ⟨e, p⟩ := out
      cases e <;> cases p <;> rfl
    case query_status =>
      obtain ⟨r, s, st⟩ := out
      cases r <;> cases s <;> cases st <;> rfl
    all_goals (cases out; rfl)

/-! ## Part 3: connection state machine and correlator

The Go client implementing the connection handshake and command/response
correlation is not among the provided sources; these definitions are
modelled from the specification (sections 4.2, 4.4, 5 and 7). -/

/-- Modelled from the spec: the handshake states of section 4.2
(`Connecting → AwaitingGreeting → Negotiating → Ready → Closed`, with a
`Failed` absorbing state). -/
inductive ConnState
  | connecting
  | awaitingGreeting
  | negotiating
  | ready
  | closed
  | failed
deriving DecidableEq, Repr

/-- A wire Command: operation name plus optional out-of-band identifier. -/
structure Command where
  execute : String
  id : Option Nat
deriving DecidableEq, Repr

/-- The Command a given operation puts on the wire (serial mode: no id). -/
def QmpOp.command (op : QmpOp) : Command := ⟨op.wireName, none⟩

/-- Modelled from the spec: a Connection's handshake-relevant state — the
state-machine state, the peer's offered capability set cached from the
Greeting, the caller's requested set, the agreed set fixed at negotiation,
and the trace of Commands written to the Transport. -/
structure Conn where
  state : ConnState
  offered : List String
  requested : List String
  agreed : List String
  writes : List Command
deriving DecidableEq, Repr

/-- A fresh Connection for a caller that requests the given capabilities. -/
def Conn.init (requested : List String) : Conn :=
  ⟨.connecting, [], requested, [], []⟩

/-- Modelled from the spec: the events driving the connection state
machine — transport open, Greeting arrival, issuance of an operation,
observation of the negotiation Response, close, transport error. -/
inductive ConnEvent
  | openOk
  | greetingRecv (offered : List String)
  | issue (op : QmpOp)
  | negotiationOk
  | closeConn
  | transportError
deriving DecidableEq, Repr

/-- Modelled from the spec: one transition of the connection state machine
(section 4.2).  Issuing an operation in a state that does not permit it
fails immediately without touching the Transport, so the write trace grows
only in the permitted state; a Greeting or negotiation Response observed
out of sequence is a protocol-sequence error and is connection-fatal. -/
def Conn.step (c : Conn) (e : ConnEvent) : Conn :=
  match e with
  | .openOk =>
      if c.state = .connecting then { c with state := .awaitingGreeting } else c
  | .greetingRecv off =>
      if c.state = .awaitingGreeting then { c with state := .negotiating, offered := off }
      else if c.state = .closed then c
      else { c with state := .failed }
  | .issue op =>
      if op = .qmp_capabilities then
        if c.state = .negotiating then { c with writes := c.writes ++ [op.command] }
        else c
      else
        if c.state = .ready then { c with writes := c.writes ++ [op.command] }
        else c
  | .negotiationOk =>
      if c.state = .negotiating then
        { c with state := .ready, agreed := c.offered.filter (· ∈ c.requested) }
      else if c.state = .closed then c
      else { c with state := .failed }
  | .closeConn =>
      if c.state = .ready then { c with state := .closed } else c
  | .transportError =>
      if c.state = .closed then c else { c with state := .failed }

/-- The Connections reachable from a fresh Connection. -/
inductive Conn.Reachable (requested : List String) : Conn → Prop
  | init : Conn.Reachable requested (Conn.init requested)
  | step {c : Conn} (e : ConnEvent) :
      Conn.Reachable requested c → Conn.Reachable requested (c.step e)

/-- C1: in every reachable Connection, a step that writes a non-negotiation
Command to the Transport can only happen in the `Ready` state. -/
theorem C1_state_gate (req : List String) (c : Conn) (e : ConnEvent) (cmd : Command)
    (_hreach : Conn.Reachable req c)
    (hwrite : (c.step e).writes = c.writes ++ [cmd])
    (hop : cmd.execute ≠ "qmp_capabilities") :
    c.state = ConnState.ready := by
  cases e with
  | openOk =>
      simp only [Conn.step] at hwrite
      split at hwrite <;> simp at hwrite
  | greetingRecv off =>
      simp only [Conn.step] at hwrite
      split at hwrite <;> [skip; split at hwrite] <;> simp at hwrite
  | issue op =>
      simp only [Conn.step] at hwrite
      by_cases hcap : op = QmpOp.qmp_capabilities
      · subst hcap
        rw [if_pos rfl] at hwrite
        split at hwrite
        · simp [QmpOp.command, QmpOp.wireName] at hwrite
          exact absurd (congrArg Command.execute hwrite).symm hop
        · simp at hwrite
      · rw [if_neg hcap] at hwrite
        split at hwrite
        · assumption
        · simp at hwrite
  | negotiationOk =>
      simp only [Conn.step] at hwrite
      split at hwrite <;> [skip; split at hwrite] <;> simp at hwrite
  | closeConn =>
      simp only [Conn.step] at hwrite
      split at hwrite <;> simp at hwrite
  | transportError =>
      simp only [Conn.step] at hwrite
      split at hwrite <;> simp at hwrite

/-- Witness for C1: a Connection driven through the full handshake is in
`Ready` when it writes the `stop` Command. -/
theorem C1_state_gate_witness :
    Conn.Reachable ["oob"]
      (((((Conn.init ["oob"]).step .openOk).step (.greetingRecv ["oob"])).step
        (.issue .qmp_capabilities)).step .negotiationOk)
    ∧ (((((Conn.init ["oob"]).step .openOk).step (.greetingRecv ["oob"])).step
        (.issue .qmp_capabilities)).step .negotiationOk).state = ConnState.ready := by
  have hreach : Conn.Reachable ["oob"]
      (((((Conn.init ["oob"]).step .openOk).step (.greetingRecv ["oob"])).step
        (.issue .qmp_capabilities)).step .negotiationOk) :=
    Conn.Reachable.step .negotiationOk
      (Conn.Reachable.step (.issue .qmp_capabilities)
        (Conn.Reachable.step (.greetingRecv ["oob"])
          (Conn.Reachable.step .openOk Conn.Reachable.init)))
  refine ⟨hreach, ?_⟩
  exact C1_state_gate ["oob"] _ (.issue .stop) ⟨"stop", none⟩ hreach
    (by decide) (by decide)

/-- Modelled from the spec: the events of the serial-mode Correlator
(section 4.4) — a caller submitting a Command, and a Response arriving. -/
inductive SerialEvent
  | submit
  | respond
deriving DecidableEq, Repr

/-- Modelled from the spec: the serial-mode Correlator state.  Commands are
numbered in submission order; `pending` is the single in-flight Command (at
most one in serial mode), `waiting` holds callers suspended behind it,
`resolved` records the order in which Responses were delivered to callers,
and `submitted` records the order of submission. -/
structure SerialCorr where
  nextSeq : Nat
  waiting : List Nat
  pending : Option Nat
  resolved : List Nat
  submitted : List Nat
deriving DecidableEq, Repr

/-- The initial serial Correlator: nothing submitted, pending or resolved. -/
def SerialCorr.init : SerialCorr := ⟨0, [], none, [], []⟩

/-- Modelled from the spec: one serial-mode Correlator transition.  A submit
while another Command is pending suspends the caller (joins `waiting`); a
Response resolves the pending Command and promotes the oldest suspended
caller, preserving strict request/response ordering. -/
def SerialCorr.step (s : SerialCorr) (e : SerialEvent) : SerialCorr :=
  match e with
  | .submit =>
      let n := s.nextSeq
      match s.pending with
      | none =>
          { s with nextSeq := n + 1, pending := some n, submitted := s.submitted ++ [n] }
      | some _ =>
          { s with nextSeq := n + 1, waiting := s.waiting ++ [n],
                   submitted := s.submitted ++ [n] }
  | .respond =>
      match s.pending with
      | none => s
      | some n =>
          { s with resolved := s.resolved ++ [n],
                   pending := s.waiting.head?,
                   waiting := s.waiting.tail }

/-- The serial Correlator state after a sequence of events. -/
def SerialCorr.run (es : List SerialEvent) : SerialCorr :=
  es.foldl SerialCorr.step SerialCorr.init

/-- The ordering invariant of the serial Correlator: no caller waits while
nothing is pending, and delivery order + in-flight + suspended callers is
exactly the submission order. -/
def SerialCorr.Inv (s : SerialCorr) : Prop :=
  (s.pending = none → s.waiting = [])
  ∧ s.resolved ++ s.pending.toList ++ s.waiting = s.submitted

theorem SerialCorr.inv_step (s : SerialCorr) (e : SerialEvent) (h : s.Inv) :
    (s.step e).Inv := by
  obtain ⟨hw, horder⟩ := h
  cases e with
  | submit =>
      cases hp : s.pending with
      | none =>
          refine ⟨fun hcontra => by simp [SerialCorr.step, hp] at hcontra, ?_⟩
          have hwnil := hw hp
          simp [SerialCorr.step, hp, hwnil]
          simpa [hp, hwnil] using horder
      | some n =>
          refine ⟨fun hcontra => by simp [SerialCorr.step, hp] at hcontra, ?_⟩
          simp only [SerialCorr.step, hp]
          rw [← horder]
          simp [hp]
  | respond =>
      cases hp : s.pending with
      | none =>
          constructor
          · intro _
            simpa [SerialCorr.step, hp] using hw hp
          · simpa [SerialCorr.step, hp] using horder
      | some n =>
          constructor
          · intro hnone
            simp only [SerialCorr.step, hp] at hnone ⊢
            cases hwv : s.waiting with
            | nil => simp [hwv]
            | cons a t => simp [hwv] at hnone
          · simp only [SerialCorr.step, hp]
            rw [← horder]
            simp [hp]
            cases hwv : s.waiting with
            | nil => simp [hwv]
            | cons a t => simp [hwv]

theorem SerialCorr.inv_foldl (es : List SerialEvent) (s : SerialCorr) (h : s.Inv) :
    (es.foldl SerialCorr.step s).Inv := by
  induction es generalizing s with
  | nil => exact h
  | cons e es ih => exact ih (s.step e) (SerialCorr.inv_step s e h)

theorem SerialCorr.inv_run (es : List SerialEvent) : (SerialCorr.run es).Inv :=
  SerialCorr.inv_foldl es SerialCorr.init ⟨fun _ => rfl, rfl⟩

/-- C2: under any serial-mode event sequence, at most one Command is
pending at a time, and the Responses delivered to callers form a prefix of
the submission order — i.e. they are observed in exactly submission order. -/
theorem C2_serial_order (es : List SerialEvent) :
    (SerialCorr.run es).pending.toList.length ≤ 1
    ∧ (SerialCorr.run es).resolved ++ (SerialCorr.run es).pending.toList
        ++ (SerialCorr.run es).waiting = (SerialCorr.run es).submitted
    ∧ (∃ t, (SerialCorr.run es).resolved ++ t = (SerialCorr.run es).submitted) := by
  obtain ⟨hw, horder⟩ := SerialCorr.inv_run es
  refine ⟨?_, horder, ?_⟩
  · cases (SerialCorr.run es).pending <;> simp
  · exact ⟨(SerialCorr.run es).pending.toList ++ (SerialCorr.run es).waiting,
      by rw [← List.append_assoc]; exact horder⟩

/-- Modelled from the spec: the payload of an inbound Response — either a
success payload or a structured peer error with class and description
(section 6). -/
inductive RespPayload
  | success (payload : Json)
  | error (cls : String) (desc : String)

/-- Modelled from the spec: the result delivered to the caller that
submitted the matching Command — success, or the peer's error surfaced
verbatim (section 4.6). -/
inductive QmpResult
  | success (payload : Json)
  | peerError (cls : String) (desc : String)

/-- The result the Correlator delivers for a given Response payload: the
peer's class and description are carried verbatim, never translated. -/
def RespPayload.toResult : RespPayload → QmpResult
  | .success p => .success p
  | .error c d => .peerError c d

/-- Modelled from the spec: the out-of-band Correlator state (sections 4.4,
5, 7) — the Connection state, the identifiers of in-flight Commands, the
bookkeeping of cancelled identifiers retained for late Responses, the
results delivered to callers in order, and the log of reported unmatched
Responses. -/
structure Corr where
  connState : ConnState
  pending : List Nat
  cancelled : List Nat
  delivered : List (Nat × QmpResult)
  violations : List Nat

/-- Modelled from the spec: Response arrival in the out-of-band Correlator.
A Response matching an in-flight identifier resolves exactly that caller; a
Response matching a cancelled identifier is logged as unmatched and
discarded, not fatal; a Response matching neither is a protocol violation —
reported and connection-fatal. -/
def Corr.handleResponse (c : Corr) (id : Nat) (p : RespPayload) : Corr :=
  if id ∈ c.pending then
    { c with pending := c.pending.erase id,
             delivered := c.delivered ++ [(id, p.toResult)] }
  else if id ∈ c.cancelled then
    { c with cancelled := c.cancelled.erase id,
             violations := c.violations ++ [id] }
  else
    { c with connState := .failed, violations := c.violations ++ [id] }

/-- Modelled from the spec: caller-initiated cancellation of a pending
submit — the Command is removed from the pending set and its identifier is
retained as cancelled bookkeeping. -/
def Corr.cancel (c : Corr) (id : Nat) : Corr :=
  if id ∈ c.pending then
    { c with pending := c.pending.erase id, cancelled := c.cancelled ++ [id] }
  else c

/-- Modelled from the spec: the events driving the out-of-band Correlator —
a Command submitted with a fresh identifier, a Response arriving, a caller
cancelling its pending submit. -/
inductive CorrEvent
  | submit (id : Nat)
  | respond (id : Nat) (p : RespPayload)
  | cancelEv (id : Nat)

/-- Modelled from the spec: one out-of-band Correlator transition.
Identifiers are unique (generated by the Connection's counter), so a submit
with an identifier already in flight is a no-op. -/
def Corr.step (c : Corr) : CorrEvent → Corr
  | .submit id =>
      if c.connState = .ready ∧ id ∉ c.pending then { c with pending := c.pending ++ [id] }
      else c
  | .respond id p => if c.connState = .ready then c.handleResponse id p else c
  | .cancelEv id => c.cancel id

/-- The initial out-of-band Correlator: ready, nothing in flight. -/
def Corr.init : Corr := ⟨.ready, [], [], [], []⟩

/-- The out-of-band Correlator state after a sequence of events. -/
def Corr.run (es : List CorrEvent) : Corr :=
  es.foldl Corr.step Corr.init

/-- The pending set never holds duplicate identifiers. -/
theorem Corr.pending_nodup_step (c : Corr) (e : CorrEvent) (h : c.pending.Nodup) :
    (c.step e).pending.Nodup := by
  cases e with
  | submit id =>
      by_cases hc : c.connState = .ready ∧ id ∉ c.pending
      · simp only [Corr.step, if_pos hc]
        refine List.Nodup.append h (List.nodup_singleton id) ?_
        intro a ha hmem
        rw [List.mem_singleton] at hmem
        subst hmem
        exact hc.2 ha
      · simpa only [Corr.step, if_neg hc] using h
  | respond id p =>
      by_cases hr : c.connState = .ready
      · simp only [Corr.step, if_pos hr, Corr.handleResponse]
        split
        · exact h.erase id
        · split <;> exact h
      · simpa only [Corr.step, if_neg hr] using h
  | cancelEv id =>
      simp only [Corr.step, Corr.cancel]
      split
      · exact h.erase id
      · exact h

theorem Corr.pending_nodup_foldl (es : List CorrEvent) (c : Corr)
    (h : c.pending.Nodup) : (es.foldl Corr.step c).pending.Nodup := by
  induction es generalizing c with
  | nil => exact h
  | cons e es ih => exact ih (c.step e) (Corr.pending_nodup_step c e h)

theorem Corr.pending_nodup_run (es : List CorrEvent) : (Corr.run es).pending.Nodup :=
  Corr.pending_nodup_foldl es Corr.init List.nodup_nil

/-- C6 counterexample: a reachable Correlator in which a Response matches
no in-flight Command in the pending set (its Command was cancelled), yet
the Connection does not transition to `Failed`. -/
theorem C6_counterexample :
    1 ∉ (Corr.run [.submit 1, .cancelEv 1]).pending
    ∧ ((Corr.run [.submit 1, .cancelEv 1]).handleResponse 1
        (.error "GenericError" "late")).connState ≠ ConnState.failed := by
  constructor
  · decide
  · show ((Corr.run [.submit 1, .cancelEv 1]).handleResponse 1
      (.error "GenericError" "late")).connState ≠ ConnState.failed
    decide

/-- C6 (amended): a Response whose identifier matches no in-flight Command
and is not cancelled bookkeeping resolves no pending caller, is reported as
a violation, and makes the Connection transition to `Failed`. -/
theorem C6_unmatched_response_fatal (es : List CorrEvent) (id : Nat) (p : RespPayload)
    (hp : id ∉ (Corr.run es).pending) (hc : id ∉ (Corr.run es).cancelled) :
    ((Corr.run es).handleResponse id p).delivered = (Corr.run es).delivered
    ∧ ((Corr.run es).handleResponse id p).violations = (Corr.run es).violations ++ [id]
    ∧ ((Corr.run es).handleResponse id p).connState = ConnState.failed := by
  simp [Corr.handleResponse, hp, hc]

/-- Witness for C6 (amended) at the empty event sequence and identifier 5. -/
theorem C6_unmatched_response_fatal_witness :
    5 ∉ (Corr.run []).pending ∧ 5 ∉ (Corr.run []).cancelled
    ∧ (((Corr.run []).handleResponse 5 (.success .null)).delivered
        = (Corr.run []).delivered
      ∧ ((Corr.run []).handleResponse 5 (.success .null)).violations
        = (Corr.run []).violations ++ [5]
      ∧ ((Corr.run []).handleResponse 5 (.success .null)).connState
        = ConnState.failed) := by
  refine ⟨by decide, by decide, ?_⟩
  exact C6_unmatched_response_fatal [] 5 (.success .null) (by decide) (by decide)

/-- C7: cancelling a pending submit removes the Command from the pending
set, and a late-arriving matching Response is logged as unmatched but does
not change the Connection state and resolves no caller. -/
theorem C7_cancel_late_response (es : List CorrEvent) (id : Nat) (p : RespPayload)
    (h : id ∈ (Corr.run es).pending) :
    id ∉ ((Corr.run es).cancel id).pending
    ∧ (((Corr.run es).cancel id).handleResponse id p).connState
        = (Corr.run es).connState
    ∧ (((Corr.run es).cancel id).handleResponse id p).violations
        = ((Corr.run es).cancel id).violations ++ [id]
    ∧ (((Corr.run es).cancel id).handleResponse id p).delivered
        = ((Corr.run es).cancel id).delivered := by
  have hnodup := Corr.pending_nodup_run es
  have hpend : ((Corr.run es).cancel id).pending = (Corr.run es).pending.erase id := by
    simp [Corr.cancel, h]
  have hnotmem : id ∉ ((Corr.run es).cancel id).pending := by
    rw [hpend]
    intro hmem
    exact absurd rfl (hnodup.mem_erase_iff.mp hmem).1
  have hcanc : id ∈ ((Corr.run es).cancel id).cancelled := by
    simp [Corr.cancel, h]
  have hstate : ((Corr.run es).cancel id).connState = (Corr.run es).connState := by
    simp [Corr.cancel, h]
  refine ⟨hnotmem, ?_, ?_, ?_⟩ <;>
    simp [Corr.handleResponse, hnotmem, hcanc, hstate]

/-- Witness for C7 after submitting Command 3 and cancelling it. -/
theorem C7_cancel_late_response_witness :
    3 ∈ (Corr.run [.submit 3]).pending
    ∧ (3 ∉ ((Corr.run [.submit 3]).cancel 3).pending
      ∧ (((Corr.run [.submit 3]).cancel 3).handleResponse 3
          (.error "GenericError" "late")).connState = (Corr.run [.submit 3]).connState
      ∧ (((Corr.run [.submit 3]).cancel 3).handleResponse 3
          (.error "GenericError" "late")).violations
          = ((Corr.run [.submit 3]).cancel 3).violations ++ [3]
      ∧ (((Corr.run [.submit 3]).cancel 3).handleResponse 3
          (.error "GenericError" "late")).delivered
          = ((Corr.run [.submit 3]).cancel 3).delivered) := by
  refine ⟨by decide, ?_⟩
  exact C7_cancel_late_response [.submit 3] 3 (.error "GenericError" "late") (by decide)

/-- C8: a well-formed peer error Response matching an in-flight Command
delivers exactly that class and description to the submitting caller, the
Connection state is unchanged (Ready stays Ready), and every other pending
Command stays pending. -/
theorem C8_peer_error_verbatim (es : List CorrEvent) (id : Nat) (cls desc : String)
    (h : id ∈ (Corr.run es).pending) :
    ((Corr.run es).handleResponse id (.error cls desc)).delivered
        = (Corr.run es).delivered ++ [(id, .peerError cls desc)]
    ∧ ((Corr.run es).handleResponse id (.error cls desc)).connState
        = (Corr.run es).connState
    ∧ (∀ j ∈ (Corr.run es).pending, j ≠ id →
        j ∈ ((Corr.run es).handleResponse id (.error cls desc)).pending) := by
  refine ⟨?_, ?_, ?_⟩
  · simp [Corr.handleResponse, h, RespPayload.toResult]
  · simp [Corr.handleResponse, h]
  · intro j hj hne
    simp only [Corr.handleResponse, if_pos h]
    exact (List.mem_erase_of_ne hne).mpr hj

/-- Witness for C8 with two Commands in flight and a peer error for the
first: the second stays pending and the Connection state is unchanged. -/
theorem C8_peer_error_verbatim_witness :
    1 ∈ (Corr.run [.submit 1, .submit 2]).pending
    ∧ (((Corr.run [.submit 1, .submit 2]).handleResponse 1
          (.error "CommandNotFound" "nope")).delivered
        = (Corr.run [.submit 1, .submit 2]).delivered
          ++ [(1, .peerError "CommandNotFound" "nope")]
      ∧ ((Corr.run [.submit 1, .submit 2]).handleResponse 1
          (.error "CommandNotFound" "nope")).connState
        = (Corr.run [.submit 1, .submit 2]).connState
      ∧ (∀ j ∈ (Corr.run [.submit 1, .submit 2]).pending, j ≠ 1 →
          j ∈ ((Corr.run [.submit 1, .submit 2]).handleResponse 1
            (.error "CommandNotFound" "nope")).pending)) := by
  refine ⟨by decide, ?_⟩
  exact C8_peer_error_verbatim [.submit 1, .submit 2] 1 "CommandNotFound" "nope" (by decide)

end KraftKit
